import Mathlib

/-!
Vultr DNS record resource: lifecycle functions.

A shallow embedding of `resource_vultr_record.go`.  The four lifecycle
functions `resourceVultrRecordCreate`, `resourceVultrRecordRead`,
`resourceVultrRecordUpdate` and `resourceVultrRecordDelete` are translated
statement by statement into pure functions that pass three pieces of state
explicitly:

* the Terraform resource state `ResourceData` (the `d` argument),
* the state of the remote service behind the client handle (`meta`),
* the list of remote calls issued so far.

`log.Printf` lines only write to the process log and are left out.
-/

namespace VultrRecord

/-! ## Errors -/

/-- A Go `error` value, represented by the text its `Error()` method returns
(the only thing this file ever observes of an error, through `%s`). -/
structure GoError where
  msg : String
deriving DecidableEq, Repr

/-- The Go `error` result of a function: `none` is `nil`. -/
abbrev GoResult := Option GoError

/-! ## The client library's record type -/

/-- The fields of the client library's `DNSRecord` struct that this file reads
or writes.  The struct's declaration is not part of this file; every field
starts at its Go zero value. -/
structure DNSRecord where
  ID : String := ""
  Type_ : String := ""
  Name : String := ""
  Content : String := ""
  Proxied : Bool := false
  TTL : Int := 0
  ZoneID : String := ""
  ZoneName : String := ""
  Priority : Int := 0
deriving DecidableEq, Repr

/-- The response of the create call; the file reads `r.Result.ID`. -/
structure DNSRecordResponse where
  Result : DNSRecord
deriving DecidableEq, Repr

/-! ## Resource state -/

/-- The Terraform resource state: the id and the eight schema fields.
The two integer fields are optional in the schema; `none` is "not set". -/
structure ResourceData where
  id : String := ""
  domain : String := ""
  name : String := ""
  hostname : String := ""
  type : String := ""
  value : String := ""
  ttl : Option Int := none
  priority : Option Int := none
  zone_id : String := ""
deriving DecidableEq, Repr

namespace ResourceData

/-- The method `d.Id()`. -/
def Id (d : ResourceData) : String := d.id

/-- The method `d.SetId(v)`. -/
def SetId (d : ResourceData) (v : String) : ResourceData := { d with id := v }

/-- The method `d.GetOk(key)` on an integer field: the value (zero when not
set) and whether it is set to something other than the zero value. -/
def GetOkInt (v : Option Int) : Int × Bool :=
  match v with
  | some n => (n, decide (n ≠ 0))
  | none => (0, false)

/-- The method `d.Get(key)` on an integer field: zero when not set. -/
def GetInt (v : Option Int) : Int := v.getD 0

end ResourceData

/-! ## The remote client -/

/-- One remote call, with its arguments. -/
inductive Call where
  | zoneIDByName (zoneName : String)
  | createDNSRecord (zoneID : String) (rr : DNSRecord)
  | dnsRecord (zoneID recordID : String)
  | updateDNSRecord (zoneID recordID : String) (rr : DNSRecord)
  | deleteDNSRecord (zoneID recordID : String)
deriving DecidableEq, Repr

/-- The five methods of the client handle used by this file, as functions of
the remote service's state `σ`.  Each returns its Go result and the service's
state after the call. -/
structure API (σ : Type) where
  ZoneIDByName : String → σ → Except GoError String × σ
  CreateDNSRecord : String → DNSRecord → σ → Except GoError DNSRecordResponse × σ
  DNSRecord : String → String → σ → Except GoError DNSRecord × σ
  UpdateDNSRecord : String → String → VultrRecord.DNSRecord → σ → GoResult × σ
  DeleteDNSRecord : String → String → σ → GoResult × σ

/-- What lies outside the resource state: the remote service's state and the
remote calls issued so far, oldest first. -/
structure World (σ : Type) where
  remote : σ
  calls : List Call

/-- Functions this file calls but does not define. -/
structure Env where
  /-- The `%q` verb of `fmt` on a string. -/
  quote : String → String
  /-- The function `validateRecordName(type, content)`. -/
  validateRecordName : String → String → GoResult
  /-- The function `validateRecordType(type, proxied)`. -/
  validateRecordType : String → Bool → GoResult

variable {σ : Type}

/-- The call `client.ZoneIDByName(name)`, recorded. -/
def callZoneIDByName (api : API σ) (w : World σ) (zoneName : String) :
    Except GoError String × World σ :=
  ((api.ZoneIDByName zoneName w.remote).1,
   ⟨(api.ZoneIDByName zoneName w.remote).2, w.calls ++ [Call.zoneIDByName zoneName]⟩)

/-- The call `client.CreateDNSRecord(zoneID, rr)`, recorded. -/
def callCreateDNSRecord (api : API σ) (w : World σ) (zoneID : String) (rr : DNSRecord) :
    Except GoError DNSRecordResponse × World σ :=
  ((api.CreateDNSRecord zoneID rr w.remote).1,
   ⟨(api.CreateDNSRecord zoneID rr w.remote).2, w.calls ++ [Call.createDNSRecord zoneID rr]⟩)

/-- The call `client.DNSRecord(zoneID, recordID)`, recorded. -/
def callDNSRecord (api : API σ) (w : World σ) (zoneID recordID : String) :
    Except GoError DNSRecord × World σ :=
  ((api.DNSRecord zoneID recordID w.remote).1,
   ⟨(api.DNSRecord zoneID recordID w.remote).2, w.calls ++ [Call.dnsRecord zoneID recordID]⟩)

/-- The call `client.UpdateDNSRecord(zoneID, recordID, rr)`, recorded. -/
def callUpdateDNSRecord (api : API σ) (w : World σ) (zoneID recordID : String)
    (rr : DNSRecord) : GoResult × World σ :=
  ((api.UpdateDNSRecord zoneID recordID rr w.remote).1,
   ⟨(api.UpdateDNSRecord zoneID recordID rr w.remote).2,
    w.calls ++ [Call.updateDNSRecord zoneID recordID rr]⟩)

/-- The call `client.DeleteDNSRecord(zoneID, recordID)`, recorded. -/
def callDeleteDNSRecord (api : API σ) (w : World σ) (zoneID recordID : String) :
    GoResult × World σ :=
  ((api.DeleteDNSRecord zoneID recordID w.remote).1,
   ⟨(api.DeleteDNSRecord zoneID recordID w.remote).2,
    w.calls ++ [Call.deleteDNSRecord zoneID recordID]⟩)

/-! ## The lifecycle functions -/

/-- The text of `fmt.Errorf("Error finding zone %q: %s", domain, err)`. -/
def errFindingZone (env : Env) (domain : String) (err : GoError) : GoError :=
  ⟨"Error finding zone " ++ env.quote domain ++ ": " ++ err.msg⟩

/-- The function `resourceVultrRecordRead` (source lines 125-148). -/
def resourceVultrRecordRead (env : Env) (api : API σ) (d : ResourceData) (w : World σ) :
    GoResult × ResourceData × World σ :=
  let domain := d.domain
  match callZoneIDByName api w domain with
  | (.error err, w1) => (some (errFindingZone env domain err), d, w1)
  | (.ok zoneId, w1) =>
    match callDNSRecord api w1 zoneId d.Id with
    | (.error err, w2) => (some err, d, w2)
    | (.ok record, w2) =>
      let d := d.SetId record.ID
      let d := { d with hostname := record.Name }
      let d := { d with type := record.Type_ }
      let d := { d with value := record.Content }
      let d := { d with ttl := some record.TTL }
      let d := { d with priority := some record.Priority }
      let d := { d with zone_id := zoneId }
      (none, d, w2)

/-- The record literal and the two optional assignments at the top of
`resourceVultrRecordCreate` (source lines 72-85). -/
def createPayload (d : ResourceData) : DNSRecord :=
  let newRecord : DNSRecord :=
    { Type_ := d.type, Name := d.name, Content := d.value, ZoneName := d.domain }
  let newRecord :=
    match ResourceData.GetOkInt d.priority with
    | (priority, true) => { newRecord with Priority := priority }
    | (_, false) => newRecord
  let newRecord :=
    match ResourceData.GetOkInt d.ttl with
    | (ttl, true) => { newRecord with TTL := ttl }
    | (_, false) => newRecord
  newRecord

/-- The function `resourceVultrRecordCreate` (source lines 69-123). -/
def resourceVultrRecordCreate (env : Env) (api : API σ) (d : ResourceData) (w : World σ) :
    GoResult × ResourceData × World σ :=
  let newRecord := createPayload d
  match env.validateRecordName newRecord.Type_ newRecord.Content with
  | some err =>
    (some ⟨"Error validating record name " ++ env.quote newRecord.Name ++ ": " ++ err.msg⟩,
     d, w)
  | none =>
    match env.validateRecordType newRecord.Type_ newRecord.Proxied with
    | some err =>
      (some ⟨"Error validating record type " ++ env.quote newRecord.Type_ ++ ": " ++ err.msg⟩,
       d, w)
    | none =>
      match callZoneIDByName api w newRecord.ZoneName with
      | (.error err, w1) => (some (errFindingZone env newRecord.ZoneName err), d, w1)
      | (.ok zoneId, w1) =>
        let d := { d with zone_id := zoneId }
        let newRecord := { newRecord with ZoneID := zoneId }
        match callCreateDNSRecord api w1 zoneId newRecord with
        | (.error err, w2) => (some ⟨"Failed to create record: " ++ err.msg⟩, d, w2)
        | (.ok r, w2) =>
          if r.Result.ID = "" then
            (some ⟨"Failed to find record in Create response; Record was empty"⟩, d, w2)
          else
            let d := d.SetId r.Result.ID
            resourceVultrRecordRead env api d w2

/-- The record literal and the two optional assignments at the top of
`resourceVultrRecordUpdate` (source lines 153-168). -/
def updatePayload (d : ResourceData) : DNSRecord :=
  let updateRecord : DNSRecord :=
    { ID := d.Id, Type_ := d.type, Name := d.name, Content := d.value,
      ZoneName := d.domain, Proxied := false }
  let updateRecord :=
    match ResourceData.GetOkInt d.priority with
    | (priority, true) => { updateRecord with Priority := priority }
    | (_, false) => updateRecord
  let updateRecord :=
    match ResourceData.GetOkInt d.ttl with
    | (ttl, true) => { updateRecord with TTL := ttl }
    | (_, false) => updateRecord
  updateRecord

/-- The function `resourceVultrRecordUpdate` (source lines 150-184). -/
def resourceVultrRecordUpdate (env : Env) (api : API σ) (d : ResourceData) (w : World σ) :
    GoResult × ResourceData × World σ :=
  let updateRecord := updatePayload d
  match callZoneIDByName api w updateRecord.ZoneName with
  | (.error err, w1) => (some (errFindingZone env updateRecord.ZoneName err), d, w1)
  | (.ok zoneId, w1) =>
    let updateRecord := { updateRecord with ZoneID := zoneId }
    match callUpdateDNSRecord api w1 zoneId d.Id updateRecord with
    | (some err, w2) => (some ⟨"Failed to update Vultr Record: " ++ err.msg⟩, d, w2)
    | (none, w2) => resourceVultrRecordRead env api d w2

/-- The function `resourceVultrRecordDelete` (source lines 186-203). -/
def resourceVultrRecordDelete (env : Env) (api : API σ) (d : ResourceData) (w : World σ) :
    GoResult × ResourceData × World σ :=
  let domain := d.domain
  match callZoneIDByName api w domain with
  | (.error err, w1) => (some (errFindingZone env domain err), d, w1)
  | (.ok zoneId, w1) =>
    match callDeleteDNSRecord api w1 zoneId d.Id with
    | (some err, w2) => (some ⟨"Error deleting Vultr Record: " ++ err.msg⟩, d, w2)
    | (none, w2) => (none, d, w2)

/-! ## A reference remote service

A small in-memory DNS service, used to exhibit concrete runs: a table of zones
and a list of stored records, newest first. -/

/-- The state of the in-memory service. -/
structure Store where
  zones : List (String × String) := []
  records : List (String × DNSRecord) := []
  next : Nat := 0
deriving DecidableEq, Repr

/-- The error the in-memory service gives for an unknown record. -/
def recordNotFound : GoError := ⟨"record not found"⟩

/-- The error the in-memory service gives for an unknown zone. -/
def zoneNotFound : GoError := ⟨"zone not found"⟩

/-- Whether a stored entry is the record `recordID` of zone `zoneID`. -/
def Store.isEntry (zoneID recordID : String) (p : String × DNSRecord) : Bool :=
  p.1 == zoneID && p.2.ID == recordID

/-- The identifier the in-memory service gives to its next record: `R`
followed by as many `I` as records were created before. -/
def Store.freshID (s : Store) : String :=
  String.mk ('R' :: List.replicate s.next 'I')

/-- The in-memory service behind the client interface. -/
def storeAPI : API Store where
  ZoneIDByName := fun zoneName s =>
    match s.zones.lookup zoneName with
    | some z => (.ok z, s)
    | none => (.error zoneNotFound, s)
  CreateDNSRecord := fun zoneID rr s =>
    (.ok ⟨{ rr with ID := s.freshID }⟩,
     { s with records := (zoneID, { rr with ID := s.freshID }) :: s.records,
              next := s.next + 1 })
  DNSRecord := fun zoneID recordID s =>
    match s.records.find? (Store.isEntry zoneID recordID) with
    | some p => (.ok p.2, s)
    | none => (.error recordNotFound, s)
  UpdateDNSRecord := fun zoneID recordID rr s =>
    if s.records.any (Store.isEntry zoneID recordID) then
      (none, { s with records := s.records.map fun p =>
                 if Store.isEntry zoneID recordID p then (zoneID, { rr with ID := recordID })
                 else p })
    else (some recordNotFound, s)
  DeleteDNSRecord := fun zoneID recordID s =>
    if s.records.any (Store.isEntry zoneID recordID) then
      (none, { s with records := s.records.filter fun p => !Store.isEntry zoneID recordID p })
    else (some recordNotFound, s)

/-- A remote service is faithful when looking up a zone or fetching a record
leaves it as it was, creating a record in a known zone succeeds with the
payload stored under a non-empty id that a fetch then returns unchanged,
a record that was deleted is afterwards reported with the error `notFound`,
and neither creating nor deleting changes what a zone name resolves to. -/
structure FaithfulStore (api : API σ) (notFound : GoError) : Prop where
  zone_reads : ∀ n s, (api.ZoneIDByName n s).2 = s
  fetch_reads : ∀ z i s, (api.DNSRecord z i s).2 = s
  create_stores : ∀ n z rr s, (api.ZoneIDByName n s).1 = .ok z →
    ∃ i, i ≠ "" ∧ (api.CreateDNSRecord z rr s).1 = .ok ⟨{ rr with ID := i }⟩ ∧
      (api.DNSRecord z i (api.CreateDNSRecord z rr s).2).1 = .ok { rr with ID := i }
  create_keeps_zones : ∀ z rr s n,
    (api.ZoneIDByName n (api.CreateDNSRecord z rr s).2).1 = (api.ZoneIDByName n s).1
  delete_removes : ∀ z i s, (api.DeleteDNSRecord z i s).1 = none →
    (api.DNSRecord z i (api.DeleteDNSRecord z i s).2).1 = .error notFound
  delete_keeps_zones : ∀ z i s n,
    (api.ZoneIDByName n (api.DeleteDNSRecord z i s).2).1 = (api.ZoneIDByName n s).1

/-! ## Sample surroundings for concrete runs -/

/-- A stand-in for the functions defined outside this file: `%q` as plain
double quotes (what it is on letters, digits and dots), a value check that
rejects the empty value, and a type check that accepts four record types. -/
def sampleEnv : Env where
  quote := fun s => "\"" ++ s ++ "\""
  validateRecordName := fun _ content =>
    if content = "" then some ⟨"value must not be empty"⟩ else none
  validateRecordType := fun t _ =>
    if t ∈ ["A", "CNAME", "MX", "TXT"] then none else some ⟨"unknown record type"⟩

/-- A service with the single zone `example.com`, id `Z1`, and no record. -/
def sampleStore : Store := { zones := [("example.com", "Z1")] }

/-- The descriptor of the specification's example scenario. -/
def sampleDesc : ResourceData :=
  { domain := "example.com", name := "www", type := "A", value := "203.0.113.5" }

/-- A client that answers every call with a fixed result and keeps no state. -/
def scriptedAPI (zone : Except GoError String) (created : Except GoError DNSRecordResponse)
    (fetched : Except GoError DNSRecord) (updated deleted : GoResult) : API Unit where
  ZoneIDByName := fun _ s => (zone, s)
  CreateDNSRecord := fun _ _ s => (created, s)
  DNSRecord := fun _ _ s => (fetched, s)
  UpdateDNSRecord := fun _ _ _ s => (updated, s)
  DeleteDNSRecord := fun _ _ s => (deleted, s)

/-- The record `R1` of zone `Z1` as a service might hold it. -/
def sampleRecord : DNSRecord :=
  { ID := "R1", Type_ := "A", Name := "www", Content := "203.0.113.5", TTL := 300,
    ZoneID := "Z1", ZoneName := "example.com" }

/-- The sample service holding `sampleRecord`. -/
def sampleStoreR1 : Store :=
  { zones := [("example.com", "Z1")], records := [("Z1", sampleRecord)], next := 1 }

/-- A resource state that refers to `sampleRecord` with stale local values. -/
def staleState : ResourceData :=
  { id := "R1", domain := "example.com", name := "www", hostname := "old", type := "TXT",
    value := "old value", ttl := some 60, priority := some 10, zone_id := "Z0" }

/-- Whether a call is a fetch of a record. -/
def Call.isFetch : Call → Bool
  | .dnsRecord _ _ => true
  | _ => false

/-- Whether a call is an update of a record. -/
def Call.isUpdate : Call → Bool
  | .updateDNSRecord _ _ _ => true
  | _ => false

/-- Whether a call is a deletion of a record. -/
def Call.isDelete : Call → Bool
  | .deleteDNSRecord _ _ => true
  | _ => false

/-- The error `err` wraps `cause`: its text is the non-empty text `pre`
followed by the text of `cause`. -/
def Wraps (pre : String) (cause err : GoError) : Prop :=
  pre ≠ "" ∧ err.msg = pre ++ cause.msg

instance (pre : String) (cause err : GoError) : Decidable (Wraps pre cause err) := by
  unfold Wraps; infer_instance

/-! ## Basic facts -/

theorem getOkInt_fst (v : Option Int) :
    (ResourceData.GetOkInt v).1 = ResourceData.GetInt v := by
  cases v <;> rfl

theorem createPayload_eq (d : ResourceData) :
    createPayload d =
      { Type_ := d.type, Name := d.name, Content := d.value, ZoneName := d.domain,
        Priority := ResourceData.GetInt d.priority, TTL := ResourceData.GetInt d.ttl } := by
  rcases d with ⟨i, dom, nm, hn, t, v, ttl, pr, zid⟩
  rcases ttl with _ | ttl <;> rcases pr with _ | pr <;>
    simp only [createPayload, ResourceData.GetOkInt, ResourceData.GetInt, Option.getD] <;>
    (try by_cases h1 : ttl = 0) <;> (try by_cases h2 : pr = 0) <;> simp_all

theorem updatePayload_eq (d : ResourceData) :
    updatePayload d =
      { ID := d.id, Type_ := d.type, Name := d.name, Content := d.value,
        ZoneName := d.domain, Proxied := false,
        Priority := ResourceData.GetInt d.priority, TTL := ResourceData.GetInt d.ttl } := by
  rcases d with ⟨i, dom, nm, hn, t, v, ttl, pr, zid⟩
  rcases ttl with _ | ttl <;> rcases pr with _ | pr <;>
    simp only [updatePayload, ResourceData.GetOkInt, ResourceData.GetInt, Option.getD,
      ResourceData.Id] <;>
    (try by_cases h1 : ttl = 0) <;> (try by_cases h2 : pr = 0) <;> simp_all

theorem read_of_zone_error (env : Env) (api : API σ) (d : ResourceData) (w : World σ)
    (e : GoError) (s1 : σ) (hz : api.ZoneIDByName d.domain w.remote = (.error e, s1)) :
    resourceVultrRecordRead env api d w =
      (some (errFindingZone env d.domain e), d,
       ⟨s1, w.calls ++ [Call.zoneIDByName d.domain]⟩) := by
  simp [resourceVultrRecordRead, callZoneIDByName, hz]

theorem read_of_fetch_error (env : Env) (api : API σ) (d : ResourceData) (w : World σ)
    (z : String) (e : GoError) (s1 s2 : σ)
    (hz : api.ZoneIDByName d.domain w.remote = (.ok z, s1))
    (hf : api.DNSRecord z d.id s1 = (.error e, s2)) :
    resourceVultrRecordRead env api d w =
      (some e, d, ⟨s2, w.calls ++ [Call.zoneIDByName d.domain, Call.dnsRecord z d.id]⟩) := by
  simp [resourceVultrRecordRead, callZoneIDByName, callDNSRecord, hz, hf, ResourceData.Id]

theorem read_of_fetch_ok (env : Env) (api : API σ) (d : ResourceData) (w : World σ)
    (z : String) (rr : DNSRecord) (s1 s2 : σ)
    (hz : api.ZoneIDByName d.domain w.remote = (.ok z, s1))
    (hf : api.DNSRecord z d.id s1 = (.ok rr, s2)) :
    resourceVultrRecordRead env api d w =
      (none,
       { d with id := rr.ID, hostname := rr.Name, type := rr.Type_, value := rr.Content,
                ttl := some rr.TTL, priority := some rr.Priority, zone_id := z },
       ⟨s2, w.calls ++ [Call.zoneIDByName d.domain, Call.dnsRecord z d.id]⟩) := by
  simp [resourceVultrRecordRead, callZoneIDByName, callDNSRecord, hz, hf, ResourceData.Id,
    ResourceData.SetId]

/-- The payload `resourceVultrRecordCreate` sends once the zone id is known. -/
theorem createPayload_zone (d : ResourceData) (z : String) :
    ({ createPayload d with ZoneID := z } : DNSRecord) =
      { Type_ := d.type, Name := d.name, Content := d.value, ZoneName := d.domain,
        ZoneID := z, Priority := ResourceData.GetInt d.priority,
        TTL := ResourceData.GetInt d.ttl } := by
  rw [createPayload_eq]

/-- The payload `resourceVultrRecordUpdate` sends once the zone id is known. -/
theorem updatePayload_zone (d : ResourceData) (z : String) :
    ({ updatePayload d with ZoneID := z } : DNSRecord) =
      { ID := d.id, Type_ := d.type, Name := d.name, Content := d.value,
        ZoneName := d.domain, ZoneID := z, Proxied := false,
        Priority := ResourceData.GetInt d.priority,
        TTL := ResourceData.GetInt d.ttl } := by
  rw [updatePayload_eq]

theorem create_of_zone_error (env : Env) (api : API σ) (d : ResourceData) (w : World σ)
    (e : GoError) (s1 : σ)
    (hn : env.validateRecordName d.type d.value = none)
    (ht : env.validateRecordType d.type false = none)
    (hz : api.ZoneIDByName d.domain w.remote = (.error e, s1)) :
    resourceVultrRecordCreate env api d w =
      (some (errFindingZone env d.domain e), d,
       ⟨s1, w.calls ++ [Call.zoneIDByName d.domain]⟩) := by
  simp [resourceVultrRecordCreate, createPayload_eq, hn, ht, callZoneIDByName, hz]

theorem create_of_create_error (env : Env) (api : API σ) (d : ResourceData) (w : World σ)
    (z : String) (e : GoError) (s1 s2 : σ)
    (hn : env.validateRecordName d.type d.value = none)
    (ht : env.validateRecordType d.type false = none)
    (hz : api.ZoneIDByName d.domain w.remote = (.ok z, s1))
    (hc : api.CreateDNSRecord z { createPayload d with ZoneID := z } s1 = (.error e, s2)) :
    resourceVultrRecordCreate env api d w =
      (some ⟨"Failed to create record: " ++ e.msg⟩, { d with zone_id := z },
       ⟨s2, w.calls ++ [Call.zoneIDByName d.domain,
          Call.createDNSRecord z { createPayload d with ZoneID := z }]⟩) := by
  rw [createPayload_eq] at hc
  simp [resourceVultrRecordCreate, createPayload_eq, hn, ht, callZoneIDByName, hz,
    callCreateDNSRecord, hc]

theorem create_of_empty_id (env : Env) (api : API σ) (d : ResourceData) (w : World σ)
    (z : String) (r : DNSRecordResponse) (s1 s2 : σ)
    (hn : env.validateRecordName d.type d.value = none)
    (ht : env.validateRecordType d.type false = none)
    (hz : api.ZoneIDByName d.domain w.remote = (.ok z, s1))
    (hc : api.CreateDNSRecord z { createPayload d with ZoneID := z } s1 = (.ok r, s2))
    (hid : r.Result.ID = "") :
    resourceVultrRecordCreate env api d w =
      (some ⟨"Failed to find record in Create response; Record was empty"⟩,
       { d with zone_id := z },
       ⟨s2, w.calls ++ [Call.zoneIDByName d.domain,
          Call.createDNSRecord z { createPayload d with ZoneID := z }]⟩) := by
  rw [createPayload_eq] at hc
  simp [resourceVultrRecordCreate, createPayload_eq, hn, ht, callZoneIDByName, hz,
    callCreateDNSRecord, hc, hid]

theorem create_of_created (env : Env) (api : API σ) (d : ResourceData) (w : World σ)
    (z : String) (r : DNSRecordResponse) (s1 s2 : σ)
    (hn : env.validateRecordName d.type d.value = none)
    (ht : env.validateRecordType d.type false = none)
    (hz : api.ZoneIDByName d.domain w.remote = (.ok z, s1))
    (hc : api.CreateDNSRecord z { createPayload d with ZoneID := z } s1 = (.ok r, s2))
    (hid : r.Result.ID ≠ "") :
    resourceVultrRecordCreate env api d w =
      resourceVultrRecordRead env api { d with zone_id := z, id := r.Result.ID }
        ⟨s2, w.calls ++ [Call.zoneIDByName d.domain,
          Call.createDNSRecord z { createPayload d with ZoneID := z }]⟩ := by
  rw [createPayload_eq] at hc
  simp [resourceVultrRecordCreate, createPayload_eq, hn, ht, callZoneIDByName, hz,
    callCreateDNSRecord, hc, hid, ResourceData.SetId]

theorem update_of_zone_error (env : Env) (api : API σ) (d : ResourceData) (w : World σ)
    (e : GoError) (s1 : σ) (hz : api.ZoneIDByName d.domain w.remote = (.error e, s1)) :
    resourceVultrRecordUpdate env api d w =
      (some (errFindingZone env d.domain e), d,
       ⟨s1, w.calls ++ [Call.zoneIDByName d.domain]⟩) := by
  simp [resourceVultrRecordUpdate, updatePayload_eq, callZoneIDByName, hz]

theorem update_of_update_error (env : Env) (api : API σ) (d : ResourceData) (w : World σ)
    (z : String) (e : GoError) (s1 s2 : σ)
    (hz : api.ZoneIDByName d.domain w.remote = (.ok z, s1))
    (hu : api.UpdateDNSRecord z d.id { updatePayload d with ZoneID := z } s1 = (some e, s2)) :
    resourceVultrRecordUpdate env api d w =
      (some ⟨"Failed to update Vultr Record: " ++ e.msg⟩, d,
       ⟨s2, w.calls ++ [Call.zoneIDByName d.domain,
          Call.updateDNSRecord z d.id { updatePayload d with ZoneID := z }]⟩) := by
  rw [updatePayload_eq] at hu
  simp [resourceVultrRecordUpdate, updatePayload_eq, callZoneIDByName, hz,
    callUpdateDNSRecord, hu, ResourceData.Id]

theorem update_of_updated (env : Env) (api : API σ) (d : ResourceData) (w : World σ)
    (z : String) (s1 s2 : σ)
    (hz : api.ZoneIDByName d.domain w.remote = (.ok z, s1))
    (hu : api.UpdateDNSRecord z d.id { updatePayload d with ZoneID := z } s1 = (none, s2)) :
    resourceVultrRecordUpdate env api d w =
      resourceVultrRecordRead env api d
        ⟨s2, w.calls ++ [Call.zoneIDByName d.domain,
          Call.updateDNSRecord z d.id { updatePayload d with ZoneID := z }]⟩ := by
  rw [updatePayload_eq] at hu
  simp [resourceVultrRecordUpdate, updatePayload_eq, callZoneIDByName, hz,
    callUpdateDNSRecord, hu, ResourceData.Id]

theorem delete_of_zone_error (env : Env) (api : API σ) (d : ResourceData) (w : World σ)
    (e : GoError) (s1 : σ) (hz : api.ZoneIDByName d.domain w.remote = (.error e, s1)) :
    resourceVultrRecordDelete env api d w =
      (some (errFindingZone env d.domain e), d,
       ⟨s1, w.calls ++ [Call.zoneIDByName d.domain]⟩) := by
  simp [resourceVultrRecordDelete, callZoneIDByName, hz]

theorem delete_of_delete_error (env : Env) (api : API σ) (d : ResourceData) (w : World σ)
    (z : String) (e : GoError) (s1 s2 : σ)
    (hz : api.ZoneIDByName d.domain w.remote = (.ok z, s1))
    (hd : api.DeleteDNSRecord z d.id s1 = (some e, s2)) :
    resourceVultrRecordDelete env api d w =
      (some ⟨"Error deleting Vultr Record: " ++ e.msg⟩, d,
       ⟨s2, w.calls ++ [Call.zoneIDByName d.domain, Call.deleteDNSRecord z d.id]⟩) := by
  simp [resourceVultrRecordDelete, callZoneIDByName, hz, callDeleteDNSRecord, hd,
    ResourceData.Id]

theorem delete_of_deleted (env : Env) (api : API σ) (d : ResourceData) (w : World σ)
    (z : String) (s1 s2 : σ)
    (hz : api.ZoneIDByName d.domain w.remote = (.ok z, s1))
    (hd : api.DeleteDNSRecord z d.id s1 = (none, s2)) :
    resourceVultrRecordDelete env api d w =
      (none, d,
       ⟨s2, w.calls ++ [Call.zoneIDByName d.domain, Call.deleteDNSRecord z d.id]⟩) := by
  simp [resourceVultrRecordDelete, callZoneIDByName, hz, callDeleteDNSRecord, hd,
    ResourceData.Id]

/-! ## Create: degenerate and rejected inputs -/

/-- C1: when the zone lookup succeeds and the create call returns without
error a record whose ID is empty, `resourceVultrRecordCreate` returns an
error, the id of the resource state is not changed, and none of the calls it
issued is a fetch of a record; when the two validators accept, the error is
the fixed text of source line 115. -/
theorem create_empty_id_is_error (env : Env) (api : API σ) (d : ResourceData) (w : World σ)
    (z : String) (r : DNSRecordResponse) (s1 s2 : σ)
    (hz : api.ZoneIDByName d.domain w.remote = (.ok z, s1))
    (hc : api.CreateDNSRecord z { createPayload d with ZoneID := z } s1 = (.ok r, s2))
    (hid : r.Result.ID = "") :
    (resourceVultrRecordCreate env api d w).1 ≠ none ∧
    (resourceVultrRecordCreate env api d w).2.1.id = d.id ∧
    (∃ issued, (resourceVultrRecordCreate env api d w).2.2.calls = w.calls ++ issued ∧
        ∀ c ∈ issued, c.isFetch = false) ∧
    (env.validateRecordName d.type d.value = none →
      env.validateRecordType d.type false = none →
      (resourceVultrRecordCreate env api d w).1 =
        some ⟨"Failed to find record in Create response; Record was empty"⟩) := by
  rw [createPayload_eq] at hc
  cases hn : env.validateRecordName d.type d.value with
  | some e1 =>
    simp only [resourceVultrRecordCreate, createPayload_eq, hn]
    exact ⟨by simp, by simp, ⟨[], by simp, by simp⟩, by simp⟩
  | none =>
    cases ht : env.validateRecordType d.type false with
    | some e2 =>
      simp only [resourceVultrRecordCreate, createPayload_eq, hn, ht]
      exact ⟨by simp, by simp, ⟨[], by simp, by simp⟩, by simp⟩
    | none =>
      simp only [resourceVultrRecordCreate, createPayload_eq, hn, ht, callZoneIDByName, hz,
        callCreateDNSRecord, hc, hid, if_true]
      refine ⟨by simp, by simp, ⟨_, List.append_assoc _ _ _, ?_⟩, by simp⟩
      · intro c hcm
        simp at hcm
        rcases hcm with rfl | rfl <;> rfl

/-- C2: when `validateRecordName` rejects the (type, value) pair or
`validateRecordType` rejects the type, `resourceVultrRecordCreate` returns an
error and leaves the resource state, the remote service and the list of
issued calls exactly as they were, whatever the two validators are. -/
theorem create_rejected_no_effect (env : Env) (api : API σ) (d : ResourceData) (w : World σ)
    (h : env.validateRecordName d.type d.value ≠ none ∨
         env.validateRecordType d.type false ≠ none) :
    ∃ err, resourceVultrRecordCreate env api d w = (some err, d, w) := by
  cases hn : env.validateRecordName d.type d.value with
  | some e1 =>
    exact ⟨⟨"Error validating record name " ++ env.quote d.name ++ ": " ++ e1.msg⟩,
      by simp only [resourceVultrRecordCreate, createPayload_eq, hn]⟩
  | none =>
    cases ht : env.validateRecordType d.type false with
    | some e2 =>
      exact ⟨⟨"Error validating record type " ++ env.quote d.type ++ ": " ++ e2.msg⟩,
        by simp only [resourceVultrRecordCreate, createPayload_eq, hn, ht]⟩
    | none => simp [hn, ht] at h

/-- Witness of C1: a client whose create call answers with an empty record. -/
theorem create_empty_id_is_error_witness :
    (resourceVultrRecordCreate sampleEnv
        (scriptedAPI (.ok "Z1") (.ok ⟨{}⟩) (.ok sampleRecord) none none)
        sampleDesc ⟨(), []⟩).1 ≠ none ∧
    (resourceVultrRecordCreate sampleEnv
        (scriptedAPI (.ok "Z1") (.ok ⟨{}⟩) (.ok sampleRecord) none none)
        sampleDesc ⟨(), []⟩).2.1.id = "" :=
  have h := create_empty_id_is_error sampleEnv
    (scriptedAPI (.ok "Z1") (.ok ⟨{}⟩) (.ok sampleRecord) none none)
    sampleDesc ⟨(), []⟩ "Z1" ⟨{}⟩ () () rfl rfl rfl
  ⟨h.1, h.2.1⟩

/-- Witness of C2: the specification's scenario, type `MX` with an empty value. -/
theorem create_rejected_no_effect_witness :
    ∃ err, resourceVultrRecordCreate sampleEnv storeAPI
        { sampleDesc with type := "MX", value := "" } ⟨sampleStore, []⟩ =
      (some err, { sampleDesc with type := "MX", value := "" }, ⟨sampleStore, []⟩) :=
  create_rejected_no_effect sampleEnv storeAPI { sampleDesc with type := "MX", value := "" }
    ⟨sampleStore, []⟩ (Or.inl (by decide))

/-! ## Read -/

/-- C4: when `resourceVultrRecordRead` succeeds, the zone lookup gave a zone id
and the fetch gave a record, and the resulting state has hostname, type,
value, ttl, priority and zone_id equal to the record's Name, Type, Content,
TTL, Priority and to that zone id; domain and name are unchanged; and any
other prior state with the same domain and id, read in the same world, also
succeeds and ends with the same six values. -/
theorem read_overwrites (env : Env) (api : API σ) (d : ResourceData) (w : World σ)
    (hok : (resourceVultrRecordRead env api d w).1 = none) :
    ∃ z s1 rr s2,
      api.ZoneIDByName d.domain w.remote = (.ok z, s1) ∧
      api.DNSRecord z d.id s1 = (.ok rr, s2) ∧
      ((resourceVultrRecordRead env api d w).2.1.hostname = rr.Name ∧
       (resourceVultrRecordRead env api d w).2.1.type = rr.Type_ ∧
       (resourceVultrRecordRead env api d w).2.1.value = rr.Content ∧
       (resourceVultrRecordRead env api d w).2.1.ttl = some rr.TTL ∧
       (resourceVultrRecordRead env api d w).2.1.priority = some rr.Priority ∧
       (resourceVultrRecordRead env api d w).2.1.zone_id = z) ∧
      ((resourceVultrRecordRead env api d w).2.1.domain = d.domain ∧
       (resourceVultrRecordRead env api d w).2.1.name = d.name) ∧
      ∀ d0 : ResourceData, d0.domain = d.domain → d0.id = d.id →
        (resourceVultrRecordRead env api d0 w).1 = none ∧
        (resourceVultrRecordRead env api d0 w).2.1.hostname =
          (resourceVultrRecordRead env api d w).2.1.hostname ∧
        (resourceVultrRecordRead env api d0 w).2.1.type =
          (resourceVultrRecordRead env api d w).2.1.type ∧
        (resourceVultrRecordRead env api d0 w).2.1.value =
          (resourceVultrRecordRead env api d w).2.1.value ∧
        (resourceVultrRecordRead env api d0 w).2.1.ttl =
          (resourceVultrRecordRead env api d w).2.1.ttl ∧
        (resourceVultrRecordRead env api d0 w).2.1.priority =
          (resourceVultrRecordRead env api d w).2.1.priority ∧
        (resourceVultrRecordRead env api d0 w).2.1.zone_id =
          (resourceVultrRecordRead env api d w).2.1.zone_id := by
  rcases hz : api.ZoneIDByName d.domain w.remote with ⟨e | z, s1⟩
  · rw [read_of_zone_error env api d w e s1 hz] at hok
    simp at hok
  · rcases hf : api.DNSRecord z d.id s1 with ⟨e | rr, s2⟩
    · rw [read_of_fetch_error env api d w z e s1 s2 hz hf] at hok
      simp at hok
    · refine ⟨z, s1, rr, s2, rfl, hf, ?_, ?_, ?_⟩
      · rw [read_of_fetch_ok env api d w z rr s1 s2 hz hf]
        simp
      · rw [read_of_fetch_ok env api d w z rr s1 s2 hz hf]
        simp
      · intro d0 hd hi
        rw [read_of_fetch_ok env api d w z rr s1 s2 hz hf,
          read_of_fetch_ok env api d0 w z rr s1 s2 (hd ▸ hz) (hi ▸ hf)]
        simp

/-- Witness of C4: reading `R1` of `example.com` over stale local values. -/
theorem read_overwrites_witness :
    (resourceVultrRecordRead sampleEnv storeAPI staleState ⟨sampleStoreR1, []⟩).1 = none ∧
    (resourceVultrRecordRead sampleEnv storeAPI staleState ⟨sampleStoreR1, []⟩).2.1 =
      { id := "R1", domain := "example.com", name := "www", hostname := "www", type := "A",
        value := "203.0.113.5", ttl := some 300, priority := some 0, zone_id := "Z1" } ∧
    ∃ z s1 rr s2,
      storeAPI.ZoneIDByName "example.com" sampleStoreR1 = (.ok z, s1) ∧
      storeAPI.DNSRecord z "R1" s1 = (.ok rr, s2) :=
  have h := read_overwrites sampleEnv storeAPI staleState ⟨sampleStoreR1, []⟩ (by decide)
  ⟨by decide, by decide,
    h.elim fun z h1 => h1.elim fun s1 h2 => h2.elim fun rr h3 => h3.elim fun s2 h4 =>
      ⟨z, s1, rr, s2, h4.1, h4.2.1⟩⟩

/-- C5: when the zone lookup succeeds and the fetch of (zone id, id) fails with
error `e`, `resourceVultrRecordRead` returns `e` itself and leaves the resource
state unchanged. -/
theorem read_fetch_error_unmodified (env : Env) (api : API σ) (d : ResourceData)
    (w : World σ) (z : String) (e : GoError) (s1 s2 : σ)
    (hz : api.ZoneIDByName d.domain w.remote = (.ok z, s1))
    (hf : api.DNSRecord z d.id s1 = (.error e, s2)) :
    (resourceVultrRecordRead env api d w).1 = some e ∧
    (resourceVultrRecordRead env api d w).2.1 = d := by
  rw [read_of_fetch_error env api d w z e s1 s2 hz hf]
  exact ⟨rfl, rfl⟩

/-- Witness of C5: reading a record the service does not hold. -/
theorem read_fetch_error_unmodified_witness :
    (resourceVultrRecordRead sampleEnv storeAPI staleState ⟨sampleStore, []⟩).1 =
      some recordNotFound ∧
    (resourceVultrRecordRead sampleEnv storeAPI staleState ⟨sampleStore, []⟩).2.1 =
      staleState :=
  read_fetch_error_unmodified sampleEnv storeAPI staleState ⟨sampleStore, []⟩ "Z1"
    recordNotFound sampleStore sampleStore rfl rfl

/-! ## The id after Create -/

/-- C3: the code at a failing input.  The zone lookup answers `Z1`, the
create call answers a record with ID `R1`, which passes the guard of source
lines 112-116 and is stored as the id, and the fetch of (`Z1`, `R1`) answers,
without error, a record that has no ID.  Then `resourceVultrRecordCreate`
returns success, after the four calls lookup, create, lookup, fetch, and the
id held in the resource state is the empty string: the claim, and the guard
the code itself puts on the create response, are broken by the unchecked
`d.SetId(record.ID)` of source line 139. -/
theorem create_success_with_empty_id :
    (resourceVultrRecordCreate sampleEnv
        (scriptedAPI (.ok "Z1") (.ok ⟨{ ID := "R1" }⟩) (.ok {}) none none)
        sampleDesc ⟨(), []⟩).1 = none ∧
    (resourceVultrRecordCreate sampleEnv
        (scriptedAPI (.ok "Z1") (.ok ⟨{ ID := "R1" }⟩) (.ok {}) none none)
        sampleDesc ⟨(), []⟩).2.1.id = "" ∧
    (resourceVultrRecordCreate sampleEnv
        (scriptedAPI (.ok "Z1") (.ok ⟨{ ID := "R1" }⟩) (.ok {}) none none)
        sampleDesc ⟨(), []⟩).2.2.calls =
      [Call.zoneIDByName "example.com",
       Call.createDNSRecord "Z1"
         { Type_ := "A", Name := "www", Content := "203.0.113.5",
           ZoneName := "example.com", ZoneID := "Z1" },
       Call.zoneIDByName "example.com",
       Call.dnsRecord "Z1" "R1"] := by
  decide

/-! ## Failure of the zone lookup -/

/-- C8: when resolving the zone id from the state's domain fails with `e`,
each of Create (once both validators accept), Read, Update and Delete returns
the error whose text is `Error finding zone`, the quoted domain and the text
of `e`; the zone lookup is the only call issued; and the resource state is
unchanged. -/
theorem zone_failure_stops (env : Env) (api : API σ) (d : ResourceData) (w : World σ)
    (e : GoError) (s1 : σ)
    (hz : api.ZoneIDByName d.domain w.remote = (.error e, s1)) :
    (env.validateRecordName d.type d.value = none →
      env.validateRecordType d.type false = none →
      resourceVultrRecordCreate env api d w =
        (some ⟨"Error finding zone " ++ env.quote d.domain ++ ": " ++ e.msg⟩, d,
         ⟨s1, w.calls ++ [Call.zoneIDByName d.domain]⟩)) ∧
    resourceVultrRecordRead env api d w =
      (some ⟨"Error finding zone " ++ env.quote d.domain ++ ": " ++ e.msg⟩, d,
       ⟨s1, w.calls ++ [Call.zoneIDByName d.domain]⟩) ∧
    resourceVultrRecordUpdate env api d w =
      (some ⟨"Error finding zone " ++ env.quote d.domain ++ ": " ++ e.msg⟩, d,
       ⟨s1, w.calls ++ [Call.zoneIDByName d.domain]⟩) ∧
    resourceVultrRecordDelete env api d w =
      (some ⟨"Error finding zone " ++ env.quote d.domain ++ ": " ++ e.msg⟩, d,
       ⟨s1, w.calls ++ [Call.zoneIDByName d.domain]⟩) :=
  ⟨fun hn ht => create_of_zone_error env api d w e s1 hn ht hz,
   read_of_zone_error env api d w e s1 hz,
   update_of_zone_error env api d w e s1 hz,
   delete_of_zone_error env api d w e s1 hz⟩

/-- Witness of C8: a domain the in-memory service has no zone for. -/
theorem zone_failure_stops_witness :
    resourceVultrRecordCreate sampleEnv storeAPI { sampleDesc with domain := "example.org" }
        ⟨sampleStore, []⟩ =
      (some ⟨"Error finding zone \"example.org\": zone not found"⟩,
       { sampleDesc with domain := "example.org" },
       ⟨sampleStore, [Call.zoneIDByName "example.org"]⟩) ∧
    resourceVultrRecordDelete sampleEnv storeAPI { sampleDesc with domain := "example.org" }
        ⟨sampleStore, []⟩ =
      (some ⟨"Error finding zone \"example.org\": zone not found"⟩,
       { sampleDesc with domain := "example.org" },
       ⟨sampleStore, [Call.zoneIDByName "example.org"]⟩) :=
  have h := zone_failure_stops sampleEnv storeAPI { sampleDesc with domain := "example.org" }
    ⟨sampleStore, []⟩ zoneNotFound sampleStore rfl
  ⟨h.1 rfl rfl, h.2.2.2⟩

/-! ## Update and Delete: the calls issued -/

/-- The calls `resourceVultrRecordRead` issues are zone lookups and fetches. -/
theorem read_calls (env : Env) (api : API σ) (d : ResourceData) (w : World σ) :
    ∃ more, (resourceVultrRecordRead env api d w).2.2.calls = w.calls ++ more ∧
      more.filter Call.isUpdate = [] := by
  rcases hz : api.ZoneIDByName d.domain w.remote with ⟨e | z, s1⟩
  · rw [read_of_zone_error env api d w e s1 hz]
    exact ⟨_, rfl, rfl⟩
  · rcases hf : api.DNSRecord z d.id s1 with ⟨e | rr, s2⟩
    · rw [read_of_fetch_error env api d w z e s1 s2 hz hf]
      exact ⟨_, rfl, rfl⟩
    · rw [read_of_fetch_ok env api d w z rr s1 s2 hz hf]
      exact ⟨_, rfl, rfl⟩

/-- C7, as stated, fails in its last part: the update payload carries the
type of the state (here `TXT`), and changing only the type of the prior state
changes the payload sent. -/
theorem update_payload_carries_type :
    (resourceVultrRecordUpdate sampleEnv storeAPI staleState
        ⟨sampleStoreR1, []⟩).2.2.calls.filter Call.isUpdate =
      [Call.updateDNSRecord "Z1" "R1"
        { ID := "R1", Type_ := "TXT", Name := "www", Content := "old value",
          ZoneName := "example.com", ZoneID := "Z1", Priority := 10, TTL := 60,
          Proxied := false }] ∧
    (resourceVultrRecordUpdate sampleEnv storeAPI { staleState with type := "A" }
        ⟨sampleStoreR1, []⟩).2.2.calls.filter Call.isUpdate ≠
      (resourceVultrRecordUpdate sampleEnv storeAPI staleState
        ⟨sampleStoreR1, []⟩).2.2.calls.filter Call.isUpdate := by
  decide

/-- C7, amended: when the zone lookup succeeds with zone id `z`,
`resourceVultrRecordUpdate` issues exactly one update call, addressed to
(`z`, current id), whose payload has ID = the current id, Type = the state's
type, Name = name, Content = value, ZoneName = domain, ZoneID = `z`,
Priority and TTL = the state's values (0 when unset) and Proxied = false. -/
theorem update_issues_one_call (env : Env) (api : API σ) (d : ResourceData) (w : World σ)
    (z : String) (s1 : σ)
    (hz : api.ZoneIDByName d.domain w.remote = (.ok z, s1)) :
    ∃ issued, (resourceVultrRecordUpdate env api d w).2.2.calls = w.calls ++ issued ∧
      issued.filter Call.isUpdate =
        [Call.updateDNSRecord z d.id
          { ID := d.id, Type_ := d.type, Name := d.name, Content := d.value,
            ZoneName := d.domain, ZoneID := z,
            Priority := ResourceData.GetInt d.priority,
            TTL := ResourceData.GetInt d.ttl, Proxied := false }] := by
  rcases hu : api.UpdateDNSRecord z d.id { updatePayload d with ZoneID := z } s1
    with ⟨_ | e, s2⟩
  · rw [update_of_updated env api d w z s1 s2 hz hu]
    obtain ⟨more, hm, hnone⟩ := read_calls env api d
      ⟨s2, w.calls ++ [Call.zoneIDByName d.domain,
        Call.updateDNSRecord z d.id { updatePayload d with ZoneID := z }]⟩
    refine ⟨[Call.zoneIDByName d.domain,
        Call.updateDNSRecord z d.id { updatePayload d with ZoneID := z }] ++ more, ?_, ?_⟩
    · rw [hm, List.append_assoc]
    · rw [List.filter_append, hnone, updatePayload_zone]
      rfl
  · rw [update_of_update_error env api d w z e s1 s2 hz hu]
    refine ⟨[Call.zoneIDByName d.domain,
        Call.updateDNSRecord z d.id { updatePayload d with ZoneID := z }], rfl, ?_⟩
    rw [updatePayload_zone]
    rfl

/-- Witness of C7 (amended): an update of `R1` in zone `Z1`. -/
theorem update_issues_one_call_witness :
    ∃ issued,
      (resourceVultrRecordUpdate sampleEnv storeAPI staleState
        ⟨sampleStoreR1, []⟩).2.2.calls = [] ++ issued ∧
      issued.filter Call.isUpdate =
        [Call.updateDNSRecord "Z1" "R1"
          { ID := "R1", Type_ := "TXT", Name := "www", Content := "old value",
            ZoneName := "example.com", ZoneID := "Z1", Priority := 10, TTL := 60,
            Proxied := false }] :=
  update_issues_one_call sampleEnv storeAPI staleState ⟨sampleStoreR1, []⟩ "Z1"
    sampleStoreR1 rfl

/-- C10: when the zone lookup succeeds with zone id `z`,
`resourceVultrRecordDelete` issues, after the lookup, exactly one call, the
deletion of (`z`, current id), and no fetch; it returns an error exactly
when that call fails; the resource state is unchanged either way; and over
a faithful service a Read of the same state after a successful Delete returns
the service's not-found error. -/
theorem delete_issues_one_call (env : Env) (api : API σ) (d : ResourceData) (w : World σ)
    (z : String) (s1 : σ)
    (hz : api.ZoneIDByName d.domain w.remote = (.ok z, s1)) :
    (resourceVultrRecordDelete env api d w).2.2.calls =
      w.calls ++ [Call.zoneIDByName d.domain, Call.deleteDNSRecord z d.id] ∧
    ((resourceVultrRecordDelete env api d w).1 ≠ none ↔
      (api.DeleteDNSRecord z d.id s1).1 ≠ none) ∧
    (resourceVultrRecordDelete env api d w).2.1 = d ∧
    (∀ notFound : GoError, FaithfulStore api notFound →
      (resourceVultrRecordDelete env api d w).1 = none →
      (resourceVultrRecordRead env api d (resourceVultrRecordDelete env api d w).2.2).1 =
        some notFound) := by
  rcases hd : api.DeleteDNSRecord z d.id s1 with ⟨_ | e, s2⟩
  · rw [delete_of_deleted env api d w z s1 s2 hz hd]
    refine ⟨rfl, by simp, rfl, ?_⟩
    intro notFound hfaith _
    have hs1 : s1 = w.remote := by
      have := hfaith.zone_reads d.domain w.remote
      rw [hz] at this
      exact this
    subst hs1
    have hz2 : api.ZoneIDByName d.domain s2 = (.ok z, s2) := by
      have h1 := hfaith.delete_keeps_zones z d.id w.remote d.domain
      have h2 := hfaith.zone_reads d.domain s2
      rw [hd, hz] at h1
      exact Prod.ext h1 h2
    have hf2 : api.DNSRecord z d.id s2 = (.error notFound, s2) := by
      have h1 := hfaith.delete_removes z d.id w.remote (by rw [hd])
      have h2 := hfaith.fetch_reads z d.id s2
      rw [hd] at h1
      exact Prod.ext h1 h2
    rw [read_of_fetch_error env api d _ z notFound s2 s2 hz2 hf2]
  · rw [delete_of_delete_error env api d w z e s1 s2 hz hd]
    refine ⟨rfl, by simp, rfl, ?_⟩
    intro notFound _ h
    simp at h

/-! ## The in-memory service is faithful -/

theorem storeAPI_faithful : FaithfulStore storeAPI recordNotFound where
  zone_reads := by
    intro n s
    simp only [storeAPI]
    cases s.zones.lookup n <;> rfl
  fetch_reads := by
    intro z i s
    simp only [storeAPI]
    cases s.records.find? (Store.isEntry z i) <;> rfl
  create_stores := by
    intro n z rr s _
    refine ⟨s.freshID, ?_, rfl, ?_⟩
    · intro h
      have := congrArg String.data h
      simp [Store.freshID] at this
    · simp [storeAPI, List.find?, Store.isEntry]
  create_keeps_zones := by
    intro z rr s n
    simp only [storeAPI]
    cases s.zones.lookup n <;> rfl
  delete_removes := by
    intro z i s h
    simp only [storeAPI] at h ⊢
    by_cases hany : s.records.any (Store.isEntry z i) = true
    · rw [if_pos hany]
      have hnone : (s.records.filter fun p => !Store.isEntry z i p).find?
          (Store.isEntry z i) = none := by
        rw [List.find?_eq_none]
        intro x hx
        have := (List.mem_filter.mp hx).2
        simpa using this
      simp only [hnone]
    · rw [if_neg hany] at h
      simp at h
  delete_keeps_zones := by
    intro z i s n
    simp only [storeAPI]
    by_cases hany : s.records.any (Store.isEntry z i) = true
    · rw [if_pos hany]
      show (match s.zones.lookup n with
        | some z1 => ((Except.ok z1 : Except GoError String), _)
        | none => (Except.error zoneNotFound, _)).1 = _
      cases s.zones.lookup n <;> rfl
    · rw [if_neg hany]

/-- Witness of C10: deleting `R1` from the in-memory service, then reading it. -/
theorem delete_issues_one_call_witness :
    (resourceVultrRecordDelete sampleEnv storeAPI staleState ⟨sampleStoreR1, []⟩).2.2.calls =
      [Call.zoneIDByName "example.com", Call.deleteDNSRecord "Z1" "R1"] ∧
    (resourceVultrRecordDelete sampleEnv storeAPI staleState ⟨sampleStoreR1, []⟩).1 = none ∧
    (resourceVultrRecordRead sampleEnv storeAPI staleState
      (resourceVultrRecordDelete sampleEnv storeAPI staleState ⟨sampleStoreR1, []⟩).2.2).1 =
        some recordNotFound :=
  have h := delete_issues_one_call sampleEnv storeAPI staleState ⟨sampleStoreR1, []⟩ "Z1"
    sampleStoreR1 rfl
  ⟨h.1, by decide, h.2.2.2 recordNotFound storeAPI_faithful (by decide)⟩

/-! ## Round trip over a faithful service -/

/-- C9: over a faithful service, for a descriptor both validators accept and
whose domain resolves to zone id `z`, `resourceVultrRecordCreate` succeeds
and the resulting state has a non-empty id, type, value, domain and name as
in the descriptor, hostname = the descriptor's name, ttl and priority = the
descriptor's values (0 when absent) and zone_id = `z`; a Read that follows
succeeds and leaves that state unchanged. -/
theorem create_round_trip (env : Env) (api : API σ) (notFound : GoError)
    (d : ResourceData) (w : World σ) (z : String)
    (hfaith : FaithfulStore api notFound)
    (hn : env.validateRecordName d.type d.value = none)
    (ht : env.validateRecordType d.type false = none)
    (hz : (api.ZoneIDByName d.domain w.remote).1 = .ok z) :
    (resourceVultrRecordCreate env api d w).1 = none ∧
    (resourceVultrRecordCreate env api d w).2.1.id ≠ "" ∧
    ((resourceVultrRecordCreate env api d w).2.1.type = d.type ∧
     (resourceVultrRecordCreate env api d w).2.1.value = d.value ∧
     (resourceVultrRecordCreate env api d w).2.1.hostname = d.name ∧
     (resourceVultrRecordCreate env api d w).2.1.ttl = some (ResourceData.GetInt d.ttl) ∧
     (resourceVultrRecordCreate env api d w).2.1.priority =
       some (ResourceData.GetInt d.priority) ∧
     (resourceVultrRecordCreate env api d w).2.1.zone_id = z ∧
     (resourceVultrRecordCreate env api d w).2.1.domain = d.domain ∧
     (resourceVultrRecordCreate env api d w).2.1.name = d.name) ∧
    (resourceVultrRecordRead env api (resourceVultrRecordCreate env api d w).2.1
      (resourceVultrRecordCreate env api d w).2.2).1 = none ∧
    (resourceVultrRecordRead env api (resourceVultrRecordCreate env api d w).2.1
      (resourceVultrRecordCreate env api d w).2.2).2.1 =
        (resourceVultrRecordCreate env api d w).2.1 := by
  have hz1 : api.ZoneIDByName d.domain w.remote = (.ok z, w.remote) :=
    Prod.ext hz (hfaith.zone_reads d.domain w.remote)
  obtain ⟨i, hi, hcr, hfe⟩ :=
    hfaith.create_stores d.domain z { createPayload d with ZoneID := z } w.remote hz
  generalize hs2 : (api.CreateDNSRecord z { createPayload d with ZoneID := z } w.remote).2 = s2
    at hfe
  have hc : api.CreateDNSRecord z { createPayload d with ZoneID := z } w.remote =
      (.ok ⟨{ ({ createPayload d with ZoneID := z } : DNSRecord) with ID := i }⟩, s2) :=
    Prod.ext hcr hs2
  have hz2 : api.ZoneIDByName d.domain s2 = (.ok z, s2) := by
    have h1 := hfaith.create_keeps_zones z { createPayload d with ZoneID := z } w.remote
      d.domain
    rw [hs2, hz] at h1
    exact Prod.ext h1 (hfaith.zone_reads d.domain s2)
  have hf : api.DNSRecord z i s2 =
      (.ok { ({ createPayload d with ZoneID := z } : DNSRecord) with ID := i }, s2) :=
    Prod.ext hfe (hfaith.fetch_reads z i s2)
  rw [create_of_created env api d w z _ w.remote s2 hn ht hz1 hc hi]
  rw [read_of_fetch_ok env api _ _ z _ s2 s2 hz2 hf]
  refine ⟨rfl, hi, ?_, ?_⟩
  · rw [createPayload_eq]
    exact ⟨rfl, rfl, rfl, rfl, rfl, rfl, rfl, rfl⟩
  · rw [read_of_fetch_ok env api _ _ z _ s2 s2 hz2 hf]
    exact ⟨rfl, rfl⟩

/-- Witness of C9: the specification's example scenario on the in-memory
service. -/
theorem create_round_trip_witness :
    (resourceVultrRecordCreate sampleEnv storeAPI sampleDesc ⟨sampleStore, []⟩).1 = none ∧
    (resourceVultrRecordCreate sampleEnv storeAPI sampleDesc ⟨sampleStore, []⟩).2.1 =
      { id := "R", domain := "example.com", name := "www", hostname := "www", type := "A",
        value := "203.0.113.5", ttl := some 0, priority := some 0, zone_id := "Z1" } ∧
    (resourceVultrRecordRead sampleEnv storeAPI
      (resourceVultrRecordCreate sampleEnv storeAPI sampleDesc ⟨sampleStore, []⟩).2.1
      (resourceVultrRecordCreate sampleEnv storeAPI sampleDesc ⟨sampleStore, []⟩).2.2).2.1 =
        (resourceVultrRecordCreate sampleEnv storeAPI sampleDesc ⟨sampleStore, []⟩).2.1 :=
  have h := create_round_trip sampleEnv storeAPI recordNotFound sampleDesc ⟨sampleStore, []⟩
    "Z1" storeAPI_faithful rfl rfl rfl
  ⟨h.1, by decide, h.2.2.2.2⟩

/-! ## The shape of the errors returned -/

theorem eq_empty_of_length (a : String) (h : a.length = 0) : a = "" := by
  apply String.ext
  exact List.length_eq_zero.mp h

theorem append_ne_empty (a b : String) (h : a ≠ "") : a ++ b ≠ "" := by
  intro hab
  apply h
  have h1 := congrArg String.length hab
  rw [String.length_append] at h1
  have h2 : a.length = 0 := by
    have : "".length = 0 := rfl
    omega
  exact eq_empty_of_length a h2

theorem wraps_ne_cause (pre : String) (cause err : GoError) (h : Wraps pre cause err) :
    err ≠ cause := by
  intro he
  obtain ⟨hpre, hmsg⟩ := h
  rw [he] at hmsg
  have h1 := congrArg String.length hmsg
  rw [String.length_append] at h1
  have h2 : pre.length = 0 := by omega
  exact hpre (eq_empty_of_length pre h2)

theorem wraps_zone (env : Env) (domain : String) (e : GoError) :
    Wraps ("Error finding zone " ++ env.quote domain ++ ": ") e
      (errFindingZone env domain e) :=
  ⟨append_ne_empty _ _ (append_ne_empty _ _ (by decide)), rfl⟩

theorem read_error_cases (env : Env) (api : API σ) (d : ResourceData) (w : World σ)
    (err : GoError) (h : (resourceVultrRecordRead env api d w).1 = some err) :
    (∃ e s1, api.ZoneIDByName d.domain w.remote = (.error e, s1) ∧
      Wraps ("Error finding zone " ++ env.quote d.domain ++ ": ") e err) ∨
    (∃ z s1 s2, api.ZoneIDByName d.domain w.remote = (.ok z, s1) ∧
      api.DNSRecord z d.id s1 = (.error err, s2)) := by
  rcases hz : api.ZoneIDByName d.domain w.remote with ⟨e | z, s1⟩
  · rw [read_of_zone_error env api d w e s1 hz] at h
    simp only [Option.some.injEq] at h
    exact Or.inl ⟨e, s1, rfl, h ▸ wraps_zone env d.domain e⟩
  · rcases hf : api.DNSRecord z d.id s1 with ⟨e | rr, s2⟩
    · rw [read_of_fetch_error env api d w z e s1 s2 hz hf] at h
      simp only [Option.some.injEq] at h
      exact Or.inr ⟨z, s1, s2, rfl, h ▸ hf⟩
    · rw [read_of_fetch_ok env api d w z rr s1 s2 hz hf] at h
      simp at h

theorem delete_error_cases (env : Env) (api : API σ) (d : ResourceData) (w : World σ)
    (err : GoError) (h : (resourceVultrRecordDelete env api d w).1 = some err) :
    (∃ e s1, api.ZoneIDByName d.domain w.remote = (.error e, s1) ∧
      Wraps ("Error finding zone " ++ env.quote d.domain ++ ": ") e err) ∨
    (∃ z s1 e s2, api.ZoneIDByName d.domain w.remote = (.ok z, s1) ∧
      api.DeleteDNSRecord z d.id s1 = (some e, s2) ∧
      Wraps "Error deleting Vultr Record: " e err) := by
  rcases hz : api.ZoneIDByName d.domain w.remote with ⟨e | z, s1⟩
  · rw [delete_of_zone_error env api d w e s1 hz] at h
    simp only [Option.some.injEq] at h
    exact Or.inl ⟨e, s1, rfl, h ▸ wraps_zone env d.domain e⟩
  · rcases hd : api.DeleteDNSRecord z d.id s1 with ⟨_ | e, s2⟩
    · rw [delete_of_deleted env api d w z s1 s2 hz hd] at h
      simp at h
    · rw [delete_of_delete_error env api d w z e s1 s2 hz hd] at h
      simp only [Option.some.injEq] at h
      exact Or.inr ⟨z, s1, e, s2, rfl, hd, by decide, h ▸ rfl⟩

theorem update_error_cases (env : Env) (api : API σ) (d : ResourceData) (w : World σ)
    (err : GoError) (h : (resourceVultrRecordUpdate env api d w).1 = some err) :
    (∃ e s1, api.ZoneIDByName d.domain w.remote = (.error e, s1) ∧
      Wraps ("Error finding zone " ++ env.quote d.domain ++ ": ") e err) ∨
    (∃ z s1 e s2, api.ZoneIDByName d.domain w.remote = (.ok z, s1) ∧
      api.UpdateDNSRecord z d.id { updatePayload d with ZoneID := z } s1 = (some e, s2) ∧
      Wraps "Failed to update Vultr Record: " e err) ∨
    (∃ z s1 s2, api.ZoneIDByName d.domain w.remote = (.ok z, s1) ∧
        api.UpdateDNSRecord z d.id { updatePayload d with ZoneID := z } s1 = (none, s2) ∧
        (resourceVultrRecordRead env api d
          ⟨s2, w.calls ++ [Call.zoneIDByName d.domain,
            Call.updateDNSRecord z d.id { updatePayload d with ZoneID := z }]⟩).1 =
          some err ∧
        ((∃ e s3, api.ZoneIDByName d.domain s2 = (.error e, s3) ∧
            Wraps ("Error finding zone " ++ env.quote d.domain ++ ": ") e err) ∨
         (∃ z2 s3 s4, api.ZoneIDByName d.domain s2 = (.ok z2, s3) ∧
            api.DNSRecord z2 d.id s3 = (.error err, s4)))) := by
  rcases hz : api.ZoneIDByName d.domain w.remote with ⟨e | z, s1⟩
  · rw [update_of_zone_error env api d w e s1 hz] at h
    simp only [Option.some.injEq] at h
    exact Or.inl ⟨e, s1, rfl, h ▸ wraps_zone env d.domain e⟩
  · rcases hu : api.UpdateDNSRecord z d.id { updatePayload d with ZoneID := z } s1
      with ⟨_ | e, s2⟩
    · rw [update_of_updated env api d w z s1 s2 hz hu] at h
      exact Or.inr (Or.inr ⟨z, s1, s2, rfl, hu, h, read_error_cases env api d _ err h⟩)
    · rw [update_of_update_error env api d w z e s1 s2 hz hu] at h
      simp only [Option.some.injEq] at h
      exact Or.inr (Or.inl ⟨z, s1, e, s2, rfl, hu, by decide, h ▸ rfl⟩)

theorem create_error_cases (env : Env) (api : API σ) (d : ResourceData) (w : World σ)
    (err : GoError) (h : (resourceVultrRecordCreate env api d w).1 = some err) :
    (∃ e, env.validateRecordName d.type d.value = some e ∧
      Wraps ("Error validating record name " ++ env.quote d.name ++ ": ") e err) ∨
    (∃ e, env.validateRecordType d.type false = some e ∧
      Wraps ("Error validating record type " ++ env.quote d.type ++ ": ") e err) ∨
    (∃ e s1, api.ZoneIDByName d.domain w.remote = (.error e, s1) ∧
      Wraps ("Error finding zone " ++ env.quote d.domain ++ ": ") e err) ∨
    (∃ z s1 e s2, api.ZoneIDByName d.domain w.remote = (.ok z, s1) ∧
      api.CreateDNSRecord z { createPayload d with ZoneID := z } s1 = (.error e, s2) ∧
      Wraps "Failed to create record: " e err) ∨
    (∃ z s1 r s2, api.ZoneIDByName d.domain w.remote = (.ok z, s1) ∧
      api.CreateDNSRecord z { createPayload d with ZoneID := z } s1 = (.ok r, s2) ∧
      r.Result.ID = "" ∧
      err = ⟨"Failed to find record in Create response; Record was empty"⟩) ∨
    (∃ z s1 r s2, api.ZoneIDByName d.domain w.remote = (.ok z, s1) ∧
        api.CreateDNSRecord z { createPayload d with ZoneID := z } s1 = (.ok r, s2) ∧
        r.Result.ID ≠ "" ∧
        (resourceVultrRecordRead env api { d with zone_id := z, id := r.Result.ID }
          ⟨s2, w.calls ++ [Call.zoneIDByName d.domain,
            Call.createDNSRecord z { createPayload d with ZoneID := z }]⟩).1 =
          some err ∧
        ((∃ e s3, api.ZoneIDByName d.domain s2 = (.error e, s3) ∧
            Wraps ("Error finding zone " ++ env.quote d.domain ++ ": ") e err) ∨
         (∃ z2 s3 s4, api.ZoneIDByName d.domain s2 = (.ok z2, s3) ∧
            api.DNSRecord z2 r.Result.ID s3 = (.error err, s4)))) := by
  cases hn : env.validateRecordName d.type d.value with
  | some e1 =>
    simp only [resourceVultrRecordCreate, createPayload_eq, hn, Option.some.injEq] at h
    exact Or.inl ⟨e1, rfl, append_ne_empty _ _ (append_ne_empty _ _ (by decide)), h ▸ rfl⟩
  | none =>
    cases ht : env.validateRecordType d.type false with
    | some e2 =>
      simp only [resourceVultrRecordCreate, createPayload_eq, hn, ht, Option.some.injEq] at h
      exact Or.inr (Or.inl
        ⟨e2, rfl, append_ne_empty _ _ (append_ne_empty _ _ (by decide)), h ▸ rfl⟩)
    | none =>
      rcases hz : api.ZoneIDByName d.domain w.remote with ⟨e | z, s1⟩
      · rw [create_of_zone_error env api d w e s1 hn ht hz] at h
        simp only [Option.some.injEq] at h
        exact Or.inr (Or.inr (Or.inl ⟨e, s1, rfl, h ▸ wraps_zone env d.domain e⟩))
      · rcases hc : api.CreateDNSRecord z { createPayload d with ZoneID := z } s1
          with ⟨e | r, s2⟩
        · rw [create_of_create_error env api d w z e s1 s2 hn ht hz hc] at h
          simp only [Option.some.injEq] at h
          exact Or.inr (Or.inr (Or.inr (Or.inl
            ⟨z, s1, e, s2, rfl, hc, by decide, h ▸ rfl⟩)))
        · by_cases hid : r.Result.ID = ""
          · rw [create_of_empty_id env api d w z r s1 s2 hn ht hz hc hid] at h
            simp only [Option.some.injEq] at h
            exact Or.inr (Or.inr (Or.inr (Or.inr (Or.inl
              ⟨z, s1, r, s2, rfl, hc, hid, h.symm⟩))))
          · rw [create_of_created env api d w z r s1 s2 hn ht hz hc hid] at h
            exact Or.inr (Or.inr (Or.inr (Or.inr (Or.inr
              ⟨z, s1, r, s2, rfl, hc, hid, h, read_error_cases env api _ _ err h⟩))))

/-- C6, as stated, fails: with a client whose fetch fails, Read, Create and
Update each return the client's own error, with nothing put before its text. -/
theorem lifecycle_returns_raw_fetch_error :
    ((scriptedAPI (.ok "Z1") (.ok ⟨{ ID := "R1" }⟩) (.error ⟨"HTTP status 404"⟩)
        none none).DNSRecord "Z1" "R1" ()).1 = .error ⟨"HTTP status 404"⟩ ∧
    (resourceVultrRecordRead sampleEnv
        (scriptedAPI (.ok "Z1") (.ok ⟨{ ID := "R1" }⟩) (.error ⟨"HTTP status 404"⟩)
          none none) staleState ⟨(), []⟩).1 = some ⟨"HTTP status 404"⟩ ∧
    (resourceVultrRecordCreate sampleEnv
        (scriptedAPI (.ok "Z1") (.ok ⟨{ ID := "R1" }⟩) (.error ⟨"HTTP status 404"⟩)
          none none) sampleDesc ⟨(), []⟩).1 = some ⟨"HTTP status 404"⟩ ∧
    (resourceVultrRecordUpdate sampleEnv
        (scriptedAPI (.ok "Z1") (.ok ⟨{ ID := "R1" }⟩) (.error ⟨"HTTP status 404"⟩)
          none none) staleState ⟨(), []⟩).1 = some ⟨"HTTP status 404"⟩ ∧
    ¬ ∃ pre, Wraps pre ⟨"HTTP status 404"⟩ ⟨"HTTP status 404"⟩ :=
  ⟨rfl, by decide, by decide, by decide,
   fun ⟨pre, h⟩ => wraps_ne_cause pre _ _ h rfl⟩

/-- C6, amended: every error returned by Read, Delete, Update or Create is of
one of three kinds.  (1) It wraps its cause, the text of the cause coming
after a non-empty text that names the step and, for the validators and the
zone lookup, the quoted name, type or domain: so for a rejection by either
validator, a failed zone lookup, and a failed create, update or delete call;
such an error is never the cause itself.  (2) In Create, it is the fixed text
of source line 115 when the create response has an empty ID.  (3) It is the
error of the fetch, returned as the client gave it, by Read, and by Create and
Update through the Read that ends them; that Read runs on the state and the
service the operation has reached (for Create the state with the new zone id
and id, after the create call; for Update the same state, after the update
call), and its error is again of kind (1), for its own zone lookup, or the
error of its fetch of the current id. -/
theorem lifecycle_errors_classified (env : Env) (api : API σ) (d : ResourceData)
    (w : World σ) (err : GoError) :
    ((resourceVultrRecordRead env api d w).1 = some err →
      (∃ e s1, api.ZoneIDByName d.domain w.remote = (.error e, s1) ∧
        Wraps ("Error finding zone " ++ env.quote d.domain ++ ": ") e err) ∨
      (∃ z s1 s2, api.ZoneIDByName d.domain w.remote = (.ok z, s1) ∧
        api.DNSRecord z d.id s1 = (.error err, s2))) ∧
    ((resourceVultrRecordDelete env api d w).1 = some err →
      (∃ e s1, api.ZoneIDByName d.domain w.remote = (.error e, s1) ∧
        Wraps ("Error finding zone " ++ env.quote d.domain ++ ": ") e err) ∨
      (∃ z s1 e s2, api.ZoneIDByName d.domain w.remote = (.ok z, s1) ∧
        api.DeleteDNSRecord z d.id s1 = (some e, s2) ∧
        Wraps "Error deleting Vultr Record: " e err)) ∧
    ((resourceVultrRecordUpdate env api d w).1 = some err →
      (∃ e s1, api.ZoneIDByName d.domain w.remote = (.error e, s1) ∧
        Wraps ("Error finding zone " ++ env.quote d.domain ++ ": ") e err) ∨
      (∃ z s1 e s2, api.ZoneIDByName d.domain w.remote = (.ok z, s1) ∧
        api.UpdateDNSRecord z d.id { updatePayload d with ZoneID := z } s1 = (some e, s2) ∧
        Wraps "Failed to update Vultr Record: " e err) ∨
      (∃ z s1 s2, api.ZoneIDByName d.domain w.remote = (.ok z, s1) ∧
        api.UpdateDNSRecord z d.id { updatePayload d with ZoneID := z } s1 = (none, s2) ∧
        (resourceVultrRecordRead env api d
          ⟨s2, w.calls ++ [Call.zoneIDByName d.domain,
            Call.updateDNSRecord z d.id { updatePayload d with ZoneID := z }]⟩).1 =
          some err ∧
        ((∃ e s3, api.ZoneIDByName d.domain s2 = (.error e, s3) ∧
            Wraps ("Error finding zone " ++ env.quote d.domain ++ ": ") e err) ∨
         (∃ z2 s3 s4, api.ZoneIDByName d.domain s2 = (.ok z2, s3) ∧
            api.DNSRecord z2 d.id s3 = (.error err, s4))))) ∧
    ((resourceVultrRecordCreate env api d w).1 = some err →
      (∃ e, env.validateRecordName d.type d.value = some e ∧
        Wraps ("Error validating record name " ++ env.quote d.name ++ ": ") e err) ∨
      (∃ e, env.validateRecordType d.type false = some e ∧
        Wraps ("Error validating record type " ++ env.quote d.type ++ ": ") e err) ∨
      (∃ e s1, api.ZoneIDByName d.domain w.remote = (.error e, s1) ∧
        Wraps ("Error finding zone " ++ env.quote d.domain ++ ": ") e err) ∨
      (∃ z s1 e s2, api.ZoneIDByName d.domain w.remote = (.ok z, s1) ∧
        api.CreateDNSRecord z { createPayload d with ZoneID := z } s1 = (.error e, s2) ∧
        Wraps "Failed to create record: " e err) ∨
      (∃ z s1 r s2, api.ZoneIDByName d.domain w.remote = (.ok z, s1) ∧
        api.CreateDNSRecord z { createPayload d with ZoneID := z } s1 = (.ok r, s2) ∧
        r.Result.ID = "" ∧
        err = ⟨"Failed to find record in Create response; Record was empty"⟩) ∨
      (∃ z s1 r s2, api.ZoneIDByName d.domain w.remote = (.ok z, s1) ∧
        api.CreateDNSRecord z { createPayload d with ZoneID := z } s1 = (.ok r, s2) ∧
        r.Result.ID ≠ "" ∧
        (resourceVultrRecordRead env api { d with zone_id := z, id := r.Result.ID }
          ⟨s2, w.calls ++ [Call.zoneIDByName d.domain,
            Call.createDNSRecord z { createPayload d with ZoneID := z }]⟩).1 =
          some err ∧
        ((∃ e s3, api.ZoneIDByName d.domain s2 = (.error e, s3) ∧
            Wraps ("Error finding zone " ++ env.quote d.domain ++ ": ") e err) ∨
         (∃ z2 s3 s4, api.ZoneIDByName d.domain s2 = (.ok z2, s3) ∧
            api.DNSRecord z2 r.Result.ID s3 = (.error err, s4))))) ∧
    (∀ pre cause, Wraps pre cause err → err ≠ cause) :=
  ⟨read_error_cases env api d w err, delete_error_cases env api d w err,
   update_error_cases env api d w err, create_error_cases env api d w err,
   fun pre cause h => wraps_ne_cause pre cause err h⟩

/-- Witness of C6 (amended): a failed delete call is returned wrapped. -/
theorem lifecycle_errors_classified_witness :
    (resourceVultrRecordDelete sampleEnv
        (scriptedAPI (.ok "Z1") (.ok ⟨{ ID := "R1" }⟩) (.ok sampleRecord) none
          (some ⟨"HTTP status 500"⟩)) staleState ⟨(), []⟩).1 =
      some ⟨"Error deleting Vultr Record: HTTP status 500"⟩ ∧
    ∃ z s1 e s2,
      (scriptedAPI (.ok "Z1") (.ok ⟨{ ID := "R1" }⟩) (.ok sampleRecord) none
          (some ⟨"HTTP status 500"⟩)).ZoneIDByName "example.com" () = (.ok z, s1) ∧
      (scriptedAPI (.ok "Z1") (.ok ⟨{ ID := "R1" }⟩) (.ok sampleRecord) none
          (some ⟨"HTTP status 500"⟩)).DeleteDNSRecord z "R1" s1 = (some e, s2) ∧
      Wraps "Error deleting Vultr Record: " e
        ⟨"Error deleting Vultr Record: HTTP status 500"⟩ :=
  ⟨by decide,
   ((lifecycle_errors_classified sampleEnv
      (scriptedAPI (.ok "Z1") (.ok ⟨{ ID := "R1" }⟩) (.ok sampleRecord) none
        (some ⟨"HTTP status 500"⟩)) staleState ⟨(), []⟩
      ⟨"Error deleting Vultr Record: HTTP status 500"⟩).2.1 (by decide)).elim
    (fun ⟨_, _, h, _⟩ => by simp [scriptedAPI] at h)
    (fun h => h)⟩

end VultrRecord
